import Mathlib

/-!
Verification development for the reference-profile injection generator
`examples/2D_detonation/ic2d.py` of the MFC-Le-Berre repository, together
with the domain-length constant `L` of `examples/2D_detonation/case.py`.

The generator reads a stored 1-D reference simulation (through
`mfc.viz.Case`) and writes two text artifacts:
  * `ic_decl.f90` — one static Fortran array declaration per destination
    variable id `1..num_eqns+num_dims-1`;
  * `ic_def.f90` — a single `case (666)` branch that assigns each
    destination field from its array through a clamped index
    `min(i_offset+i, nx-1)`.
The embedding below mirrors that script line by line: the dataset is a
function from snapshot index and source variable id to the list of samples,
each file is the list of lines the script writes, and the loops become
`List.foldl` over the same integer ranges.
-/

namespace Ic2d

/-- Model of the reference dataset `mfc.viz.Case("examples/1D_reactive_shocktube")`:
`data s v` is the ordered sequence `case.get_data()[s][str(v)]` of samples of
source variable id `v` at snapshot index `s`.  Each sample is modelled by its
decimal rendering, since the generator only ever uses `str(x)` of a sample or
the length of the sequence. -/
structure Dataset where
  data : Nat → Nat → List String

/-- `num_eqns = 15` from `ic2d.py`. -/
def num_eqns : Nat := 15

/-- `num_dims = 2` from `ic2d.py`. -/
def num_dims : Nat := 2

/-- `incrange(a, b) = range(a, b+1)` from `ic2d.py`: the integers `a..b`
inclusive. -/
def incrange (a b : Nat) : List Nat := List.range' a (b + 1 - a)

/-- The id translation `var_init = var_wrt if var_wrt < 3 else var_wrt - 1`
from `ic2d.py`. -/
def srcId (v : Nat) : Nat := if v < 3 then v else v - 1

/-- The per-iteration value `nx = len(case.get_data()[0][str(var_init)])`
computed in the declaration loop for destination id `v`. -/
def nxOf (d : Dataset) (v : Nat) : Nat := (d.data 0 (srcId v)).length

/-- The list `elems` of the declaration loop: the rendered samples
`[str(x) for x in case.get_data()[14694][str(var_init)]]` when
`var_wrt != 3`, and `[0.0] * nx` (each element printed as `0.0`) when
`var_wrt == 3`. -/
def declElems (d : Dataset) (v : Nat) : List String :=
  if v ≠ 3 then d.data 14694 (srcId v) else List.replicate (nxOf d v) "0.0"

/-- The element lines of one array declaration: every element is followed by
`, &` except the final element, which is followed by ` &` —
the `if i == len(elems) - 1` branch of the inner loop of `ic2d.py`. -/
def elemLines : List String → List String
  | [] => []
  | [e] => [e ++ " &"]
  | e :: e2 :: rest => (e ++ ", &") :: elemLines (e2 :: rest)

/-- The declaration header line
`real(kind(0d0)) :: var{var_wrt}(0:{nx - 1}) = [ &` of `ic2d.py`
(`nx - 1` is a Python integer, hence `Int`). -/
def declHeader (v : Nat) (nx : Nat) : String :=
  "real(kind(0d0)) :: var" ++ toString v ++ "(0:" ++ toString ((nx : Int) - 1) ++ ") = [ &"

/-- The lines one iteration of the declaration loop writes for destination
id `v`: header, element lines, and the closing `]`. -/
def declBlock (d : Dataset) (v : Nat) : List String :=
  declHeader v (nxOf d v) :: (elemLines (declElems d v) ++ ["]"])

/-- The lines of the emitted `ic_decl.f90`: the `integer :: i_offset` line
followed by the declaration loop over `incrange(1, num_eqns+num_dims-1)`. -/
def icDeclLines (d : Dataset) : List String :=
  (incrange 1 (num_eqns + num_dims - 1)).foldl
    (fun acc v => acc ++ declBlock d v) ["integer :: i_offset"]

/-- The value of the Python variable `nx` after the declaration loop: the
last iteration is `var_wrt = num_eqns + num_dims - 1`, so `nx` is the
snapshot-0 length of its translated source field.  This is the `nx` the
branch pass interpolates into `ic_def.f90`. -/
def nxFinal (d : Dataset) : Nat := nxOf d (num_eqns + num_dims - 1)

/-- The line `    i_offset = int(x_cc(0)/0.12d0*{nx - 1})` of `ic2d.py`. -/
def offsetLine (nx : Nat) : String :=
  "    i_offset = int(x_cc(0)/0.12d0*" ++ toString ((nx : Int) - 1) ++ ")"

/-- The line
`    q_prim_vf({var_wrt})%sf(i, j, 0) = var{var_wrt}(min(i_offset+i, {nx - 1}))`
of `ic2d.py`. -/
def assignLine (nx : Nat) (v : Nat) : String :=
  "    q_prim_vf(" ++ toString v ++ ")%sf(i, j, 0) = var" ++ toString v ++
    "(min(i_offset+i, " ++ toString ((nx : Int) - 1) ++ "))"

/-- The lines of the emitted `ic_def.f90`: the `case (666)` guard, the
`i_offset` line, then the branch loop over `range(1, num_eqns+num_dims-1)`,
i.e. the destination ids `1..num_eqns+num_dims-2`. -/
def icDefLines (d : Dataset) : List String :=
  (List.range' 1 (num_eqns + num_dims - 2)).foldl
    (fun acc v => acc ++ [assignLine (nxFinal d) v])
    ["case (666)", offsetLine (nxFinal d)]

/-- A list of lines rendered as the byte content of the written file: the
script terminates every `f.write` with a newline. -/
def renderFile (ls : List String) : String :=
  String.join (ls.map (fun s => s ++ "\n"))

/-- One run of the generator script.  `scale` models the parsed `--scale`
command-line argument (`args.scale`); the module parses it but the two
generation passes never mention it.  The result is the byte content of
`ic_decl.f90` paired with the byte content of `ic_def.f90`. -/
def runGenerator (scale : ℚ) (d : Dataset) : String × String :=
  (renderFile (icDeclLines d), renderFile (icDefLines d))

/-- The dataset accesses the iteration for destination id `v` performs, as
(snapshot index, source id) pairs: `get_data()[0][str(var_init)]` always
(for `nx`), and `get_data()[14694][str(var_init)]` only when `var_wrt != 3`.
(The `case.load_variable` call of the same iteration requests the same
source id `var_init`.) -/
def declReadsFor (v : Nat) : List (Nat × Nat) :=
  (0, srcId v) :: (if v ≠ 3 then [(14694, srcId v)] else [])

/-- All dataset accesses of a generator run, in order. -/
def declReads : List (Nat × Nat) :=
  ((incrange 1 (num_eqns + num_dims - 1)).map declReadsFor).flatten

/-- Semantics of the index expression `min(i_offset+i, {nx - 1})` emitted at
line 44 of `ic2d.py` into every assignment of the branch file: Fortran
integer `min` of `i_offset + i` against the literal `nx - 1`. -/
def lookupIndex (iOffset i : Int) (nx : Nat) : Int :=
  min (iOffset + i) ((nx : Int) - 1)

/-- Indices in range of the array declared as `var{v}(0:{nx-1})` by the
declaration pass. -/
def inProfileRange (idx : Int) (nx : Nat) : Prop :=
  0 ≤ idx ∧ idx ≤ (nx : Int) - 1

instance (idx : Int) (nx : Nat) : Decidable (inProfileRange idx nx) :=
  inferInstanceAs (Decidable (_ ∧ _))

/-- Fortran's `int()` intrinsic on an exact value: truncation toward zero. -/
def fortranInt (q : ℚ) : Int := if 0 ≤ q then ⌊q⌋ else -⌊-q⌋

/-- The fixed scale constant `0.12d0` in the emitted `i_offset` line. -/
def X_SCALE : ℚ := 12 / 100

/-- Semantics of the emitted statement
`i_offset = int(x_cc(0)/0.12d0*{nx - 1})`, with `x` the runtime value of
`x_cc(0)` (exact arithmetic). -/
def iOffsetValue (x : ℚ) (nx : Nat) : Int :=
  fortranInt (x / X_SCALE * ((nx : ℚ) - 1))

/-- The offset as the spec's words describe it:
`floor(physical_x_coordinate_of_reference_cell(0) / X_SCALE * (nx-1))`.
Stated for comparison with `iOffsetValue`, which follows the source. -/
def iOffsetValueSpec (x : ℚ) (nx : Nat) : Int :=
  ⌊x / X_SCALE * ((nx : ℚ) - 1)⌋

end Ic2d

namespace casepy

/-- The constant `L = 0.12` of `examples/2D_detonation/case.py` (the
half-length of the 2-D horizontal domain `x_domain%end = L*2`, and the
horizontal extent of the injected patch). -/
def L : ℚ := 12 / 100

end casepy

namespace Ic2d

/-- A dataset on which every field at every snapshot has the two samples
`1.5`, `2.5` — used to instantiate hypotheses concretely. -/
def exampleDataset : Dataset := ⟨fun _ _ => ["1.5", "2.5"]⟩

/-- A dataset that agrees with `exampleDataset` at snapshots `0` and `14694`
(the only snapshots the generator reads) and differs elsewhere. -/
def exampleDatasetB : Dataset :=
  ⟨fun s _ => if s = 0 ∨ s = 14694 then ["1.5", "2.5"] else ["9.9"]⟩

/-- A dataset whose source field `1` has two samples while every other field
has five: the lengths across variables disagree. -/
def mismatchDataset : Dataset :=
  ⟨fun _ v => if v = 1 then ["1.0", "2.0"] else ["3.0", "4.0", "5.0", "6.0", "7.0"]⟩

/-! ### Helper lemmas -/

/-- Appending-`foldl` over a list is the initial accumulator followed by the
flattened image: the loop `for v in l: acc += f(v)` in list form. -/
theorem foldl_append_eq_flatten (f : Nat → List String) (l : List Nat) :
    ∀ acc : List String,
      l.foldl (fun a v => a ++ f v) acc = acc ++ (l.map f).flatten := by
  induction l with
  | nil => intro acc; simp
  | cons v t ih => intro acc; simp [ih, List.append_assoc]

/-- Special case of `foldl_append_eq_flatten` for a loop that appends one
line per iteration. -/
theorem foldl_append_eq_map (g : Nat → String) (l : List Nat) :
    ∀ acc : List String,
      l.foldl (fun a v => a ++ [g v]) acc = acc ++ l.map g := by
  induction l with
  | nil => intro acc; simp
  | cons v t ih => intro acc; simp [ih, List.append_assoc]

/-- The declaration file is the `integer :: i_offset` line followed by the
sixteen declaration blocks in ascending id order. -/
theorem icDeclLines_eq (d : Dataset) :
    icDeclLines d = "integer :: i_offset" :: ((incrange 1 16).map (declBlock d)).flatten := by
  show (incrange 1 16).foldl (fun a v => a ++ declBlock d v) ["integer :: i_offset"] = _
  rw [foldl_append_eq_flatten]
  rfl

/-- The branch file is the `case (666)` guard, the `i_offset` line, and one
assignment line per destination id `1..15`. -/
theorem icDefLines_eq (d : Dataset) :
    icDefLines d =
      "case (666)" :: offsetLine (nxFinal d) ::
        (List.range' 1 15).map (assignLine (nxFinal d)) := by
  show (List.range' 1 15).foldl (fun a v => a ++ [assignLine (nxFinal d) v])
      ["case (666)", offsetLine (nxFinal d)] = _
  rw [foldl_append_eq_map]
  rfl

/-- `elemLines` keeps one line per element. -/
theorem elemLines_length (l : List String) : (elemLines l).length = l.length := by
  induction l with
  | nil => rfl
  | cons e t ih =>
    cases t with
    | nil => rfl
    | cons e2 t2 => simpa [elemLines] using ih

/-- `elemLines` maps every element but the last to `element ++ ", &"` and
the last element to `element ++ " &"`, in original order. -/
theorem elemLines_eq (l : List String) :
    elemLines l =
      l.dropLast.map (fun s => s ++ ", &") ++
        (l.getLast?.map (fun s => s ++ " &")).toList := by
  induction l with
  | nil => rfl
  | cons e t ih =>
    cases t with
    | nil => rfl
    | cons e2 t2 =>
      simp only [elemLines, ih, List.dropLast_cons₂, List.map_cons, List.cons_append,
        List.getLast?_cons_cons]

/-- For destination ids `1..16` the translated source id lies in `1..15`. -/
theorem srcId_bounds (v : Nat) (h1 : 1 ≤ v) (h16 : v ≤ 16) :
    1 ≤ srcId v ∧ srcId v ≤ 15 := by
  unfold srcId
  split <;> omega

/-! ### Claim theorems -/

/-- Claim C2: the branch file is a single branch guarded by the fixed tag
`666`; for every destination id `v = 1..K-1 = 1..15` it contains exactly one
assignment `q_prim_vf(v)%sf(i, j, 0) = varv(min(i_offset+i, nx-1))`
(the list of assignment lines is indexed by exactly `1..15`, without
repetition and in order), and the last destination id `K = 16` receives no
assignment in this pass. -/
theorem c2_branch_pass (d : Dataset) :
    icDefLines d =
      "case (666)" :: offsetLine (nxFinal d) ::
        (List.range' 1 15).map (assignLine (nxFinal d))
    ∧ List.Pairwise (fun a b => a < b) (List.range' 1 15)
    ∧ (∀ v, v ∈ List.range' 1 15 ↔ 1 ≤ v ∧ v ≤ 15)
    ∧ 16 ∉ List.range' 1 15
    ∧ num_eqns + num_dims - 1 = 16 := by
  refine ⟨icDefLines_eq d, by decide, ?_, by decide, rfl⟩
  intro v
  rw [List.mem_range'_1]
  omega

/-- Witness for C2 at a concrete dataset and id. -/
theorem c2_branch_pass_witness :
    3 ∈ List.range' 1 15 ∧ 16 ∉ List.range' 1 15 :=
  ⟨((c2_branch_pass exampleDataset).2.2.1 3).mpr (by decide),
    (c2_branch_pass exampleDataset).2.2.2.1⟩

/-- Claim C3, counterexample: the iteration for destination id `3` does read
the dataset — it computes source id `2` and requests its snapshot-0 array
(for `nx`), so its read list is `[(0, 2)]`, not empty. -/
theorem c3_counterexample :
    srcId 3 = 2 ∧ declReadsFor 3 = [(0, 2)] ∧ declReadsFor 3 ≠ [] := by decide

/-- Claim C3, amended: the source id is `v` for `v < 3` and `v - 1` for
`v ≥ 4`; for `v = 3` the generator still computes source id `2` and reads its
snapshot-0 array to size the profile, but never reads profile values at
ProbeIndex `14694`, and the emitted profile for id `3` is `nx` zeros. -/
theorem c3_amended_translation (d : Dataset) :
    (∀ v ∈ incrange 1 2, srcId v = v)
    ∧ (∀ v ∈ incrange 4 16, srcId v = v - 1)
    ∧ srcId 3 = 2
    ∧ declElems d 3 = List.replicate ((d.data 0 (srcId 3)).length) "0.0"
    ∧ (∀ p ∈ declReadsFor 3, p.1 = 0 ∧ p.1 ≠ 14694)
    ∧ (0, srcId 3) ∈ declReadsFor 3 := by
  refine ⟨by decide, by decide, rfl, rfl, by decide, by decide⟩

/-- Witness for C3 (amended) at concrete inputs. -/
theorem c3_amended_translation_witness :
    srcId 5 = 4 ∧ declElems exampleDataset 3 = List.replicate 2 "0.0" := by
  have h := c3_amended_translation exampleDataset
  exact ⟨h.2.1 5 (by decide), h.2.2.2.1⟩

/-- Claim C4, counterexample: the emitted lookup can be out of range of the
profile array `var v(0:nx-1)`: with `i_offset = -10`, `i = 0`, `nx = 4` the
computed index is `-10`, below the lower bound `0`. -/
theorem c4_counterexample :
    lookupIndex (-10) 0 4 = -10 ∧ ¬ inProfileRange (lookupIndex (-10) 0 4) 4 := by
  decide

/-- Claim C4, amended: for any values of `i_offset` and `i`, the computed
index `min(i_offset+i, nx-1)` of the assignment lines emitted for
`v = 1..15` never exceeds `nx - 1` (so it never overruns the upper end of
the profile array); in particular every cell with `i_offset + i ≥ nx` reads
sample `nx - 1`.  The clamp does not prevent indices below `0`. -/
theorem c4_amended_clamp (d : Dataset) (iOffset i : Int) (v : Nat)
    (h1 : 1 ≤ v) (h15 : v ≤ 15) :
    assignLine (nxFinal d) v ∈ icDefLines d
    ∧ lookupIndex iOffset i (nxFinal d) ≤ (nxFinal d : Int) - 1
    ∧ ((nxFinal d : Int) ≤ iOffset + i →
        lookupIndex iOffset i (nxFinal d) = (nxFinal d : Int) - 1) := by
  refine ⟨?_, min_le_right _ _, fun h => ?_⟩
  · rw [icDefLines_eq]
    exact List.mem_cons_of_mem _ (List.mem_cons_of_mem _
      (List.mem_map_of_mem _ (List.mem_range'_1.mpr ⟨h1, by omega⟩)))
  · unfold lookupIndex
    omega

/-- Witness for C4 (amended) at concrete inputs. -/
theorem c4_amended_clamp_witness :
    assignLine (nxFinal exampleDataset) 1 ∈ icDefLines exampleDataset
    ∧ lookupIndex 5 0 (nxFinal exampleDataset) ≤ (nxFinal exampleDataset : Int) - 1
    ∧ ((nxFinal exampleDataset : Int) ≤ 5 + 0 →
        lookupIndex 5 0 (nxFinal exampleDataset) = (nxFinal exampleDataset : Int) - 1) :=
  c4_amended_clamp exampleDataset 5 0 1 (by decide) (by decide)

/-- Claim C8: the spec requires a fail-fast abort on a length mismatch, but
the generator has no validation at all.  On a dataset whose source field `1`
has 2 samples while the others have 5, it still emits both complete
artifacts (a 110-line declaration file and a 17-line branch file) instead of
aborting with an error naming the offending variable id. -/
theorem c8_no_fail_fast :
    nxOf mismatchDataset 1 = 2 ∧ nxOf mismatchDataset 2 = 5
    ∧ nxOf mismatchDataset 1 ≠ nxOf mismatchDataset 2
    ∧ (icDeclLines mismatchDataset).length = 110
    ∧ (icDefLines mismatchDataset).length = 17 := by decide

/-- Claim C10: the parsed `--scale` argument is never used — runs with any
two values of `scale` on the same dataset produce byte-identical artifacts. -/
theorem c10_scale_unused (d : Dataset) (s1 s2 : ℚ) :
    runGenerator s1 d = runGenerator s2 d := rfl

/-- Claim C1: for a dataset whose fields all have `n` samples (the spec's
`nx` invariant), the declaration file holds exactly one array declaration
per destination id `v ∈ 1..K` (`K = num_eqns + num_dims - 1 = 16`), in
ascending order of `v`, each with exactly `n` elements in original sample
order; element `i` is the dataset's value at the translated source id and
ProbeIndex `14694` at position `i`, except `v = 3`, whose `n` elements all
equal `0.0`; each element carries the continuation marker except the last. -/
theorem c1_declaration_pass (d : Dataset) (n : Nat)
    (h : ∀ v, 1 ≤ v → v ≤ 15 →
      (d.data 0 v).length = n ∧ (d.data 14694 v).length = n) :
    num_eqns + num_dims - 1 = 16
    ∧ icDeclLines d =
        "integer :: i_offset" :: ((incrange 1 16).map (declBlock d)).flatten
    ∧ List.Pairwise (fun a b => a < b) (incrange 1 16)
    ∧ (∀ v, v ∈ incrange 1 16 ↔ 1 ≤ v ∧ v ≤ 16)
    ∧ (∀ v, 1 ≤ v → v ≤ 16 →
        declBlock d v = declHeader v n :: (elemLines (declElems d v) ++ ["]"])
        ∧ (declElems d v).length = n
        ∧ (v ≠ 3 → declElems d v = d.data 14694 (srcId v))
        ∧ (v = 3 → declElems d v = List.replicate n "0.0")
        ∧ elemLines (declElems d v) =
            (declElems d v).dropLast.map (fun s => s ++ ", &") ++
              ((declElems d v).getLast?.map (fun s => s ++ " &")).toList) := by
  refine ⟨rfl, icDeclLines_eq d, by decide, ?_, ?_⟩
  · intro v
    rw [show incrange 1 16 = List.range' 1 16 from rfl, List.mem_range'_1]
    omega
  · intro v h1 h16
    obtain ⟨hs1, hs15⟩ := srcId_bounds v h1 h16
    obtain ⟨h0, h14⟩ := h (srcId v) hs1 hs15
    have hnx : nxOf d v = n := h0
    by_cases hv3 : v = 3
    · subst hv3
      have he : declElems d 3 = List.replicate n "0.0" := by
        rw [show declElems d 3 = List.replicate (nxOf d 3) "0.0" from rfl, hnx]
      refine ⟨?_, ?_, fun hne => absurd rfl hne, fun _ => he, elemLines_eq _⟩
      · show declHeader 3 (nxOf d 3) :: (elemLines (declElems d 3) ++ ["]"]) = _
        rw [hnx]
      · rw [he, List.length_replicate]
    · have he : declElems d v = d.data 14694 (srcId v) := by
        simp [declElems, hv3]
      refine ⟨?_, ?_, fun _ => he, fun h3 => absurd h3 hv3, elemLines_eq _⟩
      · show declHeader v (nxOf d v) :: (elemLines (declElems d v) ++ ["]"]) = _
        rw [hnx]
      · rw [he, h14]

/-- Witness for C1 at a concrete uniform dataset with `n = 2`. -/
theorem c1_declaration_pass_witness :
    icDeclLines exampleDataset =
      "integer :: i_offset" ::
        ((incrange 1 16).map (declBlock exampleDataset)).flatten
    ∧ declBlock exampleDataset 2 =
        declHeader 2 2 :: (elemLines (declElems exampleDataset 2) ++ ["]"])
    ∧ (declElems exampleDataset 2).length = 2
    ∧ declElems exampleDataset 3 = List.replicate 2 "0.0" := by
  have h := c1_declaration_pass exampleDataset 2 (fun v _ _ => ⟨rfl, rfl⟩)
  exact ⟨h.2.1, (h.2.2.2.2 2 (by decide) (by decide)).1,
    (h.2.2.2.2 2 (by decide) (by decide)).2.1,
    (h.2.2.2.2 3 (by decide) (by decide)).2.2.2.1 rfl⟩

/-- Claim C5, counterexample: the emitted offset statement applies Fortran's
`int()`, which truncates toward zero, not `floor`: at `x_cc(0) = -0.06` and
`nx = 2` the emitted expression yields `0` while the claimed
`floor(x_cc(0)/X_SCALE*(nx-1))` is `-1`. -/
theorem c5_counterexample :
    iOffsetValue (-3/50) 2 = 0
    ∧ iOffsetValueSpec (-3/50) 2 = -1
    ∧ iOffsetValue (-3/50) 2 ≠ iOffsetValueSpec (-3/50) 2 := by
  have harg : ((-3/50 : ℚ)) / X_SCALE * (((2:Nat) : ℚ) - 1) = -(1/2) := by
    norm_num [X_SCALE]
  have h1 : iOffsetValue (-3/50) 2 = 0 := by
    unfold iOffsetValue fortranInt
    rw [harg, if_neg (by norm_num)]
    norm_num
  have h2 : iOffsetValueSpec (-3/50) 2 = -1 := by
    unfold iOffsetValueSpec
    rw [harg]
    norm_num
  exact ⟨h1, h2, by rw [h1, h2]; decide⟩

/-- Claim C5, amended: the offset is computed exactly once per branch
invocation (the branch file has the single `i_offset` statement before the
assignments) as `int(x_cc(0)/0.12d0*(nx-1))` — truncation toward zero, which
agrees with the claimed `floor` whenever `x_cc(0) ≥ 0` and `nx ≥ 1` — and
the constant `0.12` equals the domain-length constant `L` of `case.py`. -/
theorem c5_amended_offset (d : Dataset) (x : ℚ) (nx : Nat)
    (hx : 0 ≤ x) (hnx : 1 ≤ nx) :
    icDefLines d =
      "case (666)" :: offsetLine (nxFinal d) ::
        (List.range' 1 15).map (assignLine (nxFinal d))
    ∧ iOffsetValue x nx = iOffsetValueSpec x nx
    ∧ X_SCALE = casepy.L := by
  have harg : 0 ≤ x / X_SCALE * ((nx : ℚ) - 1) := by
    apply mul_nonneg
    · apply div_nonneg hx
      norm_num [X_SCALE]
    · have h1 : (1:ℚ) ≤ (nx:ℚ) := by exact_mod_cast hnx
      linarith
  refine ⟨icDefLines_eq d, ?_, rfl⟩
  unfold iOffsetValue iOffsetValueSpec fortranInt
  rw [if_pos harg]

/-- Witness for C5 (amended) at `x_cc(0) = 1`, `nx = 2`. -/
theorem c5_amended_offset_witness :
    icDefLines exampleDataset =
      "case (666)" :: offsetLine (nxFinal exampleDataset) ::
        (List.range' 1 15).map (assignLine (nxFinal exampleDataset))
    ∧ iOffsetValue 1 2 = iOffsetValueSpec 1 2
    ∧ X_SCALE = casepy.L :=
  c5_amended_offset exampleDataset 1 2 zero_le_one (by decide)

/-- Claim C6, counterexample: `nx` is recomputed for every variable, so on a
dataset with non-uniform field lengths the run emits declarations of
different sizes (`var1(0:1)` but `var2(0:4)`) and the branch clamp uses the
last variable's length (`4`), not the source-id-1 length (`2 - 1 = 1`). -/
theorem c6_counterexample :
    (icDeclLines mismatchDataset).get? 1 =
      some "real(kind(0d0)) :: var1(0:1) = [ &"
    ∧ (icDeclLines mismatchDataset).get? 5 =
      some "real(kind(0d0)) :: var2(0:4) = [ &"
    ∧ (icDefLines mismatchDataset).get? 1 =
      some "    i_offset = int(x_cc(0)/0.12d0*4)"
    ∧ nxOf mismatchDataset 1 = 2 := by decide

/-- Claim C6, amended: `nx` is recomputed per variable from that variable's
snapshot-0 length; when all source fields have the same snapshot-0 length
`n` — the spec's assumed invariant — every recomputation yields the single
value `n`, which equals the source-id-1 length and is used uniformly for
every emitted declaration extent and for the clamp bound and offset scale of
the branch file (whose `nx` is the last variable's). -/
theorem c6_amended_uniform (d : Dataset) (n : Nat)
    (h : ∀ v, 1 ≤ v → v ≤ 15 → (d.data 0 v).length = n) :
    nxOf d 1 = (d.data 0 1).length
    ∧ (∀ v, 1 ≤ v → v ≤ 16 → nxOf d v = n)
    ∧ nxFinal d = n
    ∧ icDefLines d =
        "case (666)" :: offsetLine n :: (List.range' 1 15).map (assignLine n)
    ∧ (∀ v, 1 ≤ v → v ≤ 16 →
        declBlock d v = declHeader v n :: (elemLines (declElems d v) ++ ["]"])) := by
  have hnx : ∀ v, 1 ≤ v → v ≤ 16 → nxOf d v = n := by
    intro v h1 h16
    obtain ⟨hs1, hs15⟩ := srcId_bounds v h1 h16
    exact h (srcId v) hs1 hs15
  have hfin : nxFinal d = n := hnx 16 (by decide) (by decide)
  refine ⟨rfl, hnx, hfin, ?_, ?_⟩
  · rw [icDefLines_eq, hfin]
  · intro v h1 h16
    show declHeader v (nxOf d v) :: (elemLines (declElems d v) ++ ["]"]) = _
    rw [hnx v h1 h16]

/-- Witness for C6 (amended) at a concrete uniform dataset with `n = 2`. -/
theorem c6_amended_uniform_witness :
    nxFinal exampleDataset = 2
    ∧ icDefLines exampleDataset =
        "case (666)" :: offsetLine 2 :: (List.range' 1 15).map (assignLine 2) := by
  have h := c6_amended_uniform exampleDataset 2 (fun v _ _ => rfl)
  exact ⟨h.2.2.1, h.2.2.2.1⟩

/-- Claim C7: the generator is deterministic — its output is a pure function
of the dataset values it reads (at ProbeIndex `14694` and snapshot `0`) and
the fixed constants: two runs over datasets that agree on every read produce
byte-identical artifacts. -/
theorem c7_determinism (scale : ℚ) (d1 d2 : Dataset)
    (h : ∀ p ∈ declReads, d1.data p.1 p.2 = d2.data p.1 p.2) :
    runGenerator scale d1 = runGenerator scale d2 := by
  have hmem : ∀ v ∈ List.range' 1 15,
      (0, v) ∈ declReads ∧ (14694, v) ∈ declReads := by decide
  have hv : ∀ v, 1 ≤ v → v ≤ 15 →
      d1.data 0 v = d2.data 0 v ∧ d1.data 14694 v = d2.data 14694 v := by
    intro v h1 h15
    have hm := hmem v (List.mem_range'_1.mpr ⟨h1, by omega⟩)
    exact ⟨h (0, v) hm.1, h (14694, v) hm.2⟩
  have hblock : ∀ v ∈ incrange 1 16, declBlock d1 v = declBlock d2 v := by
    intro v hv16
    have hb : 1 ≤ v ∧ v ≤ 16 := by
      rw [show incrange 1 16 = List.range' 1 16 from rfl, List.mem_range'_1] at hv16
      omega
    obtain ⟨hs1, hs15⟩ := srcId_bounds v hb.1 hb.2
    obtain ⟨h0, h14⟩ := hv (srcId v) hs1 hs15
    simp [declBlock, declHeader, nxOf, declElems, h0, h14]
  have hfin : nxFinal d1 = nxFinal d2 := by
    have h15 := (hv 15 (by decide) (by decide)).1
    show (d1.data 0 15).length = (d2.data 0 15).length
    rw [h15]
  unfold runGenerator
  rw [icDeclLines_eq d1, icDeclLines_eq d2, icDefLines_eq d1, icDefLines_eq d2,
    List.map_congr_left hblock, hfin]

/-- Witness for C7: two datasets that differ outside the read snapshots
generate identical output. -/
theorem c7_determinism_witness :
    runGenerator 1 exampleDataset = runGenerator 1 exampleDatasetB :=
  c7_determinism 1 exampleDataset exampleDatasetB (by decide)

/-- Claim C9: for every non-synthetic destination id, the declared extent
`0..nx-1` comes from the snapshot-0 length of the translated source field
while the emitted literals come from snapshot `14694`; the literal count
equals the declared size exactly when those two lengths agree. -/
theorem c9_extent_vs_literals (d : Dataset) (v : Nat)
    (h1 : 1 ≤ v) (h16 : v ≤ 16) (h3 : v ≠ 3) :
    declBlock d v =
      declHeader v ((d.data 0 (srcId v)).length) ::
        (elemLines (d.data 14694 (srcId v)) ++ ["]"])
    ∧ (elemLines (declElems d v)).length = (d.data 14694 (srcId v)).length
    ∧ ((elemLines (declElems d v)).length = (d.data 0 (srcId v)).length ↔
        (d.data 14694 (srcId v)).length = (d.data 0 (srcId v)).length) := by
  have he : declElems d v = d.data 14694 (srcId v) := by
    simp [declElems, h3]
  have hlen : (elemLines (declElems d v)).length = (d.data 14694 (srcId v)).length := by
    rw [elemLines_length, he]
  refine ⟨?_, hlen, by rw [hlen]⟩
  show declHeader v (nxOf d v) :: (elemLines (declElems d v) ++ ["]"]) = _
  rw [he]
  rfl

/-- Witness for C9 at destination id `1` on a concrete dataset. -/
theorem c9_extent_vs_literals_witness :
    declBlock exampleDataset 1 =
      declHeader 1 ((exampleDataset.data 0 (srcId 1)).length) ::
        (elemLines (exampleDataset.data 14694 (srcId 1)) ++ ["]"])
    ∧ (elemLines (declElems exampleDataset 1)).length =
        (exampleDataset.data 14694 (srcId 1)).length
    ∧ ((elemLines (declElems exampleDataset 1)).length =
          (exampleDataset.data 0 (srcId 1)).length ↔
        (exampleDataset.data 14694 (srcId 1)).length =
          (exampleDataset.data 0 (srcId 1)).length) :=
  c9_extent_vs_literals exampleDataset 1 (by decide) (by decide) (by decide)

end Ic2d
